import Mathlib

/-!
Verification of the Indianhealth registration server.

Shallow embedding of `src/server.js` and `src/public/js/admin.js`:
the registration data model, field validation, the `/api/register`
handler (duplicate window + insert), the admin session gate, the
`/admin/login` handler, the paginated `/admin/registrations` handler,
and the client-side CSV download.

Timestamps are epoch milliseconds, modelled as `Int` (JS `Date.now()`).
The document store is modelled as a `List Registration`; a MongoDB
insert appends the new document.  External collaborators (the
`validator.isEmail` predicate) are abstracted as function parameters.
-/

namespace IndianHealth

/-- A stored registration document (`registrationSchema`, server.js
lines 75-83).  `createdAt` is epoch milliseconds (`Date.now`). -/
structure Registration where
  name : String
  phone : String
  email : String
  city : String
  address : String
  createdAt : Int
deriving Repr, DecidableEq

/-- The JSON body of `POST /api/register` after destructuring
(server.js line 97).  A field absent from the body is `none`
(JS `undefined`). -/
structure RegisterBody where
  name : Option String
  phone : Option String
  email : Option String
  city : Option String
  address : Option String
deriving Repr, DecidableEq

/-- JS truthiness of an optional string: `undefined` and `""` are
falsy, every other string is truthy. -/
def jsTruthy : Option String → Bool
  | none => false
  | some s => !(s == "")

/-- The test `/^[0-9+\- ]{6,20}$/.test(s)` (server.js line 89): the
whole string is 6 to 20 characters, each a decimal digit, `'+'`,
`'-'` or `' '`.  The character class allows `'+'` at any position. -/
def phoneRegexTest (s : String) : Bool :=
  6 ≤ s.length && s.length ≤ 20 &&
    s.data.all fun c => c.isDigit || c == '+' || c == '-' || c == ' '

/-- The test `!data.name || data.name.length < 2` (server.js line 88). -/
def nameInvalid (data : RegisterBody) : Bool :=
  !jsTruthy data.name || (data.name.getD "").length < 2

/-- The test `!data.phone || !/^[0-9+\- ]{6,20}$/.test(data.phone)` (line 89). -/
def phoneInvalid (data : RegisterBody) : Bool :=
  !jsTruthy data.phone || !phoneRegexTest (data.phone.getD "")

/-- The test `!data.email || !validator.isEmail(data.email)` (line 90), with
`isEmail` abstracting the external `validator.isEmail`. -/
def emailInvalid (isEmail : String → Bool) (data : RegisterBody) : Bool :=
  !jsTruthy data.email || !isEmail (data.email.getD "")

/-- The helper `validateRegistration` (server.js lines 86-92).  All three rules
are checked unconditionally and their error strings accumulated in
order. -/
def validateRegistration (isEmail : String → Bool) (data : RegisterBody) : List String :=
  (if nameInvalid data then ["Invalid name"] else []) ++
  (if phoneInvalid data then ["Invalid phone"] else []) ++
  (if emailInvalid isEmail data then ["Invalid email"] else [])

/-- Modelled from the spec: the phone rule as the spec words it,
"optional leading `+`, digits, spaces, hyphens, total length 6-20" —
a `+` is allowed only as the first character.  Stated for comparison
with `phoneRegexTest`, the pattern the code actually tests. -/
def specPhonePattern (s : String) : Bool :=
  6 ≤ s.length && s.length ≤ 20 &&
    (match s.data with
      | '+' :: rest => rest
      | rest => rest).all fun c => c.isDigit || c == '-' || c == ' '

/-- Responses of `POST /api/register` (server.js lines 95-115). -/
inductive RegisterResponse where
  /-- HTTP 201 -/
  | created (message : String)
  /-- HTTP 400 -/
  | badRequest (message : String)
  /-- HTTP 409 -/
  | conflict (message : String)
deriving Repr, DecidableEq

/-- HTTP status code of each register response. -/
def RegisterResponse.status : RegisterResponse → Nat
  | .created _ => 201
  | .badRequest _ => 400
  | .conflict _ => 409

/-- The window `30*24*60*60*1000` (server.js line 101). -/
def thirtyDaysMs : Int := 30 * 24 * 60 * 60 * 1000

/-- The `POST /api/register` handler (server.js lines 95-115):
validate, reject duplicates inside the 30-day window
(`$or` on email/phone with `createdAt >= thirtyDaysAgo`), otherwise
save a new document with `city`/`address` defaulted to `""` and
`createdAt = now`.  Returns the response and the store afterwards. -/
def registerHandler (isEmail : String → Bool) (now : Int) (body : RegisterBody)
    (store : List Registration) : RegisterResponse × List Registration :=
  let errors := validateRegistration isEmail body
  if errors.length ≠ 0 then
    (.badRequest (String.intercalate ", " errors), store)
  else
    let thirtyDaysAgo := now - thirtyDaysMs
    if store.any (fun r =>
        (some r.email == body.email || some r.phone == body.phone) &&
          decide (thirtyDaysAgo ≤ r.createdAt)) then
      (.conflict "Already registered recently.", store)
    else
      let doc : Registration :=
        { name := body.name.getD "", phone := body.phone.getD "",
          email := body.email.getD "", city := body.city.getD "",
          address := body.address.getD "", createdAt := now }
      (.created "Registration saved", store ++ [doc])

/-- Per-browser admin session state: the `isAdmin` flag set by login
(server.js line 135) and read by `requireLogin` (line 122). -/
structure Session where
  isAdmin : Bool
deriving Repr, DecidableEq

/-- The two configured admin secrets `process.env.ADMIN_USER` and
`process.env.ADMIN_PASS` (server.js line 134); an unset environment
variable is `none` (JS `undefined`). -/
structure AdminConfig where
  adminUser : Option String
  adminPass : Option String
deriving Repr, DecidableEq

/-- Responses of `POST /admin/login` (server.js lines 132-140). -/
inductive LoginResponse where
  /-- HTTP 200 `{success:true, message}` -/
  | ok (message : String)
  /-- HTTP 401 `{success:false, message}` -/
  | invalid (message : String)
deriving Repr, DecidableEq

/-- HTTP status code of each login response. -/
def LoginResponse.status : LoginResponse → Nat
  | .ok _ => 200
  | .invalid _ => 401

/-- The `POST /admin/login` handler (server.js lines 132-140): strict
equality of the submitted credentials against the configured secrets;
on match set `req.session.isAdmin = true`, otherwise answer 401 and
leave the session alone. -/
def adminLogin (cfg : AdminConfig) (username password : Option String)
    (sess : Session) : LoginResponse × Session :=
  if username == cfg.adminUser && password == cfg.adminPass then
    (.ok "Logged in successfully", { sess with isAdmin := true })
  else
    (.invalid "Invalid credentials", sess)

/-! ### `parseInt` and the query-parameter defaults -/

/-- Whitespace skipped by JS `parseInt` (the common ASCII cases). -/
def jsSpace (c : Char) : Bool :=
  c == ' ' || c == '\t' || c == '\n' || c == '\r' || c == '\x0b' || c == '\x0c'

/-- Hexadecimal digit test for the `0x` branch of `parseInt`. -/
def isHexDigitChar (c : Char) : Bool :=
  c.isDigit || ('a' ≤ c && c ≤ 'f') || ('A' ≤ c && c ≤ 'F')

/-- Numeric value of a hexadecimal digit character. -/
def hexDigitVal (c : Char) : Nat :=
  if c.isDigit then c.toNat - 48
  else if 'a' ≤ c && c ≤ 'f' then c.toNat - 87
  else c.toNat - 55

/-- JS `parseInt(s)` with no radix argument: skip leading whitespace,
an optional sign, then either a `0x`/`0X` hexadecimal literal or a
run of leading decimal digits; `NaN` (here `none`) when no digit
follows.  Parsing stops at the first character outside the radix.
(JS returns an IEEE double; `Int` is exact on every value this
server meets.) -/
def parseIntJS (s : String) : Option Int :=
  let cs := s.data.dropWhile jsSpace
  let (sign, cs) : Int × List Char :=
    match cs with
    | '-' :: rest => (-1, rest)
    | '+' :: rest => (1, rest)
    | _ => (1, cs)
  match cs with
  | '0' :: 'x' :: rest =>
    let ds := rest.takeWhile isHexDigitChar
    if ds.isEmpty then none
    else some (sign * (ds.foldl (fun acc c => acc * 16 + hexDigitVal c) 0 : Nat))
  | '0' :: 'X' :: rest =>
    let ds := rest.takeWhile isHexDigitChar
    if ds.isEmpty then none
    else some (sign * (ds.foldl (fun acc c => acc * 16 + hexDigitVal c) 0 : Nat))
  | _ =>
    let ds := cs.takeWhile Char.isDigit
    if ds.isEmpty then none
    else some (sign * (ds.foldl (fun acc c => acc * 10 + (c.toNat - 48)) 0 : Nat))

/-- JS `parseInt` applied to an optional query parameter: an absent
parameter is `undefined`, and `parseInt(undefined)` is `NaN`. -/
def queryInt : Option String → Option Int
  | none => none
  | some s => parseIntJS s

/-- The JS idiom `v || d`: `NaN` and `0` are falsy and fall back to
the default, every other number is kept (including negatives). -/
def jsOrDefault (v : Option Int) (d : Int) : Int :=
  match v with
  | none => d
  | some n => if n == 0 then d else n

/-- The expression `parseInt(req.query.page) || 1` (server.js line 156). -/
def pageOf (q : Option String) : Int := jsOrDefault (queryInt q) 1

/-- The expression `parseInt(req.query.limit) || 20` (server.js line 157). -/
def limitOf (q : Option String) : Int := jsOrDefault (queryInt q) 20

/-! ### The paginated admin listing -/

/-- The query `Registration.find().sort({createdAt: -1})`: the stored documents
ordered by `createdAt` descending. -/
def sortByCreatedAtDesc (store : List Registration) : List Registration :=
  store.mergeSort fun a b => decide (b.createdAt ≤ a.createdAt)

/-- Responses of `GET /admin/registrations` (server.js lines 154-169). -/
inductive ListResponse where
  /-- HTTP 200 `{success:true, data, total, page, pages}` -/
  | ok (data : List Registration) (total : Nat) (page : Int) (pages : Int)
  /-- HTTP 401 `{success:false, message}` from `requireLogin` -/
  | notLoggedIn (message : String)
  /-- HTTP 500 `{success:false, message}` -/
  | serverError (message : String)
deriving Repr, DecidableEq

/-- HTTP status code of each listing response. -/
def ListResponse.status : ListResponse → Nat
  | .ok _ _ _ _ => 200
  | .notLoggedIn _ => 401
  | .serverError _ => 500

/-- JS `Math.ceil(total / limit)` for a natural `total` and integer
`limit`.  The handler only ever calls this with `limit ≠ 0`
(`jsOrDefault` never returns `0`); the `limit = 0` branch is dead. -/
def ceilPagesJS (total : Nat) (limit : Int) : Int :=
  if 0 < limit then ((total + limit.toNat - 1) / limit.toNat : Nat)
  else if limit < 0 then -((total / limit.natAbs : Nat) : Int)
  else 0

/-- The query pipeline of `GET /admin/registrations` after the login
gate (server.js lines 156-165): `skip = (page-1)*limit`, then
`find().sort({createdAt:-1}).skip(skip).limit(limit)` together with
`countDocuments()`.  MongoDB rejects a negative skip, which the
handler surfaces as the catch-all 500; a negative limit returns a
single batch of `|limit|` documents. -/
def listRegistrations (page limit : Int) (store : List Registration) : ListResponse :=
  let skip := (page - 1) * limit
  if skip < 0 then .serverError "Server error"
  else
    .ok (((sortByCreatedAtDesc store).drop skip.toNat).take limit.natAbs)
      store.length page (ceilPagesJS store.length limit)

/-- The full `GET /admin/registrations` handler: `requireLogin`
(server.js lines 121-124) in front of the paginated query.  Returns
the response, the store afterwards (never written), and the number of
store operations performed (`find` and `countDocuments` when the gate
passes, none otherwise). -/
def adminRegistrations (sess : Session) (qpage qlimit : Option String)
    (store : List Registration) : ListResponse × List Registration × Nat :=
  if sess.isAdmin then
    (listRegistrations (pageOf qpage) (limitOf qlimit) store, store, 2)
  else
    (.notLoggedIn "Not logged in", store, 0)

/-! ### CSV export (`src/public/js/admin.js`, `downloadCsv` handler) -/

/-- Decimal digit character for `d % 10`. -/
def digitChar (d : Nat) : Char :=
  match d % 10 with
  | 0 => '0' | 1 => '1' | 2 => '2' | 3 => '3' | 4 => '4'
  | 5 => '5' | 6 => '6' | 7 => '7' | 8 => '8' | _ => '9'

/-- Value of `n` zero-padded to two decimal digits (for `n < 100`). -/
def pad2 (n : Nat) : String := ⟨[digitChar (n / 10), digitChar n]⟩

/-- Value of `n` zero-padded to three decimal digits (for `n < 1000`). -/
def pad3 (n : Nat) : String := ⟨[digitChar (n / 100), digitChar (n / 10), digitChar n]⟩

/-- Value of `n` zero-padded to four decimal digits (for `n < 10000`). -/
def pad4 (n : Nat) : String :=
  ⟨[digitChar (n / 1000), digitChar (n / 100), digitChar (n / 10), digitChar n]⟩

/-- Gregorian date for a day count since 1970-01-01 (the standard
civil-from-days conversion): year, month, day. -/
def civilFromDays (days : Nat) : Nat × Nat × Nat :=
  let z := days + 719468
  let era := z / 146097
  let doe := z % 146097
  let yoe := (doe - doe / 1460 + doe / 36524 - doe / 146096) / 365
  let doy := doe - (365 * yoe + yoe / 4 - yoe / 100)
  let mp := (5 * doy + 2) / 153
  let d := doy - (153 * mp + 2) / 5 + 1
  let m := if mp < 10 then mp + 3 else mp - 9
  let y := era * 400 + yoe + (if m ≤ 2 then 1 else 0)
  (y, m, d)

/-- Modelled from the spec: the "ISO-8601 timestamp" rendering of a
`createdAt` value, i.e. JS `new Date(t).toISOString()`
(`"YYYY-MM-DDTHH:mm:ss.sssZ"`), which is a JS builtin and not part of
the repository.  Faithful for timestamps from 1970-01-01 to year
9999, the range `Date.now()` produces for this server. -/
def toISOString (t : Int) : String :=
  let tod := (t.emod 86400000).toNat
  let days := ((t - t.emod 86400000) / 86400000).toNat
  let (y, m, d) := civilFromDays days
  pad4 y ++ "-" ++ pad2 m ++ "-" ++ pad2 d ++ "T" ++
    pad2 (tod / 3600000) ++ ":" ++ pad2 (tod / 60000 % 60) ++ ":" ++
    pad2 (tod / 1000 % 60) ++ "." ++ pad3 (tod % 1000) ++ "Z"

/-- One CSV row of the admin download (admin.js line 56): the six
field values in order, each wrapped in double quotes, comma
separated, newline terminated.  No escaping inside values. -/
def csvRow (r : Registration) : String :=
  "\"" ++ r.name ++ "\",\"" ++ r.phone ++ "\",\"" ++ r.email ++ "\",\"" ++
    r.city ++ "\",\"" ++ r.address ++ "\",\"" ++ toISOString r.createdAt ++ "\"\n"

/-- The text built by the download handler (admin.js lines 54-57):
`csv` starts as the constant header line and the `forEach` loop
appends one row per fetched record. -/
def csvText (data : List Registration) : String :=
  data.foldl (fun csv r => csv ++ csvRow r) "Name,Phone,Email,City,Address,Date\n"

/-- The `downloadCsv` click handler (admin.js lines 46-63): fetch
`/admin/registrations?page=1&limit=9999`; on a non-ok response no CSV
is produced (the browser is sent back to the login page), otherwise
the rows of `json.data` are serialized under the header. -/
def downloadCsv (sess : Session) (store : List Registration) : Option String :=
  match adminRegistrations sess (some "1") (some "9999") store with
  | (.ok data _ _ _, _, _) => some (csvText data)
  | _ => none

/-- Number of newline characters in a string; a string all of whose
lines are newline-terminated consists of exactly this many lines. -/
def newlineCount (s : String) : Nat := s.data.count '\n'

/-- Holds (`true`) when no field of the record contains a newline character,
so that its CSV serialization stays on one line. -/
def fieldsOnOneLine (r : Registration) : Bool :=
  r.name.data.count '\n' == 0 && r.phone.data.count '\n' == 0 &&
  r.email.data.count '\n' == 0 && r.city.data.count '\n' == 0 &&
  r.address.data.count '\n' == 0

/-! ## Helper lemmas -/

/-- Running `mergeSort` with the `createdAt`-descending comparator yields a
`createdAt`-descending `Pairwise` chain. -/
theorem sortByCreatedAtDesc_sorted (store : List Registration) :
    List.Pairwise (fun a b : Registration => b.createdAt ≤ a.createdAt)
      (sortByCreatedAtDesc store) := by
  have h := @List.sorted_mergeSort Registration
    (fun a b : Registration => decide (b.createdAt ≤ a.createdAt))
    (fun a b c hab hbc => by
      simp only [decide_eq_true_eq] at *
      exact le_trans hbc hab)
    (fun a b => by
      simp only [Bool.or_eq_true, decide_eq_true_eq]
      exact le_total b.createdAt a.createdAt)
    store
  exact h.imp (by simp only [decide_eq_true_eq]; exact fun h => h)

/-- Sorting permutes the store. -/
theorem sortByCreatedAtDesc_perm (store : List Registration) :
    (sortByCreatedAtDesc store).Perm store :=
  List.mergeSort_perm store _

/-- Sorting keeps the record count. -/
theorem sortByCreatedAtDesc_length (store : List Registration) :
    (sortByCreatedAtDesc store).length = store.length :=
  (sortByCreatedAtDesc_perm store).length_eq

/-! ## C8 — admin login -/

/-- C8: `POST /admin/login` succeeds with 200 `{success:true}` and
sets the session's `isAdmin` flag exactly when the submitted
username equals the configured admin username and the submitted
password equals the configured admin password; any other pair of
credentials is answered 401 `{success:false, message}`. -/
theorem adminLogin_success_iff (cfg : AdminConfig) (username password : Option String)
    (sess : Session) :
    (username = cfg.adminUser ∧ password = cfg.adminPass →
      adminLogin cfg username password sess =
        (.ok "Logged in successfully", { isAdmin := true }) ∧
      (adminLogin cfg username password sess).1.status = 200) ∧
    (¬(username = cfg.adminUser ∧ password = cfg.adminPass) →
      adminLogin cfg username password sess = (.invalid "Invalid credentials", sess) ∧
      (adminLogin cfg username password sess).1.status = 401) := by
  constructor
  · rintro ⟨hu, hp⟩
    simp [adminLogin, hu, hp, LoginResponse.status]
  · intro h
    have hb : (username == cfg.adminUser && password == cfg.adminPass) = false := by
      rcases Bool.eq_false_or_eq_true (username == cfg.adminUser && password == cfg.adminPass)
        with ht | hf
      · exact absurd ⟨by simpa using (Bool.and_eq_true _ _ |>.mp ht).1,
          by simpa using (Bool.and_eq_true _ _ |>.mp ht).2⟩ h
      · exact hf
    simp [adminLogin, hb, LoginResponse.status]

/-- Witness for C8 at concrete credentials. -/
theorem adminLogin_success_iff_witness :
    adminLogin ⟨some "admin", some "pw"⟩ (some "admin") (some "pw") ⟨false⟩ =
      (.ok "Logged in successfully", { isAdmin := true }) :=
  ((adminLogin_success_iff ⟨some "admin", some "pw"⟩ (some "admin") (some "pw")
    ⟨false⟩).1 ⟨rfl, rfl⟩).1

/-! ## C9 — failed login leaves the session unchanged -/

/-- C9: a login attempt whose credentials do not both match the
configured secrets leaves the session state exactly as it was; in
particular a session that was not admin is still not admin. -/
theorem adminLogin_failure_frame (cfg : AdminConfig) (username password : Option String)
    (sess : Session) (h : ¬(username = cfg.adminUser ∧ password = cfg.adminPass)) :
    (adminLogin cfg username password sess).2 = sess ∧
    (sess.isAdmin = false → (adminLogin cfg username password sess).2.isAdmin = false) := by
  have hb : (username == cfg.adminUser && password == cfg.adminPass) = false := by
    rcases Bool.eq_false_or_eq_true (username == cfg.adminUser && password == cfg.adminPass)
      with ht | hf
    · exact absurd ⟨by simpa using (Bool.and_eq_true _ _ |>.mp ht).1,
        by simpa using (Bool.and_eq_true _ _ |>.mp ht).2⟩ h
    · exact hf
  constructor
  · simp [adminLogin, hb]
  · intro hs
    simp [adminLogin, hb, hs]

/-- Witness for C9: a wrong password against concrete secrets. -/
theorem adminLogin_failure_frame_witness :
    (adminLogin ⟨some "admin", some "pw"⟩ (some "admin") (some "wrong") ⟨false⟩).2 =
      (⟨false⟩ : Session) :=
  (adminLogin_failure_frame ⟨some "admin", some "pw"⟩ (some "admin") (some "wrong")
    ⟨false⟩ (by simp)).1

/-! ## C2 — the admin gate performs no store access -/

/-- C2: a request to `GET /admin/registrations` whose session lacks
the `isAdmin` flag is answered 401 `Not logged in`; the store is left
unchanged and the handler performs zero store operations, so the
response is independent of the store contents. -/
theorem adminRegistrations_unauthorized (sess : Session) (qpage qlimit : Option String)
    (store : List Registration) (h : sess.isAdmin = false) :
    adminRegistrations sess qpage qlimit store = (.notLoggedIn "Not logged in", store, 0) ∧
    (adminRegistrations sess qpage qlimit store).1.status = 401 := by
  constructor
  · simp [adminRegistrations, h]
  · simp [adminRegistrations, h, ListResponse.status]

/-- Witness for C2 on a concrete non-admin session and store. -/
theorem adminRegistrations_unauthorized_witness :
    adminRegistrations ⟨false⟩ (some "1") (some "20")
        [⟨"Jo", "1234567", "a@b.com", "", "", 0⟩] =
      (.notLoggedIn "Not logged in", [⟨"Jo", "1234567", "a@b.com", "", "", 0⟩], 0) :=
  (adminRegistrations_unauthorized ⟨false⟩ (some "1") (some "20")
    [⟨"Jo", "1234567", "a@b.com", "", "", 0⟩] rfl).1

/-! ## C10 — the query parameter `'0'` falls back to the defaults -/

/-- C10: a query string `page=0&limit=0` is treated as invalid by the
`parseInt(x) || d` idiom: page becomes 1 and limit becomes 20, the
same as omitting both parameters, and the limit used in the `pages`
division is 20, never 0. -/
theorem adminRegistrations_zero_defaults (sess : Session) (store : List Registration) :
    pageOf (some "0") = 1 ∧ limitOf (some "0") = 20 ∧
    adminRegistrations sess (some "0") (some "0") store =
      adminRegistrations sess none none store := by
  refine ⟨by decide, by decide, ?_⟩
  have hp : pageOf (some "0") = pageOf none := by decide
  have hl : limitOf (some "0") = limitOf none := by decide
  simp only [adminRegistrations, hp, hl]

/-! ## C7 — query parameter defaulting -/

/-- C7 counterexample: the claim says a `page` parameter that is not
an integer `≥ 1` is replaced by the default 1, making
`skip = (page-1)*limit` non-negative.  But `parseInt("-1") = -1` is
truthy, so `parseInt(q) || 1` keeps it: the page used is `-1`, not
the claimed default `1`, and the computed skip is `-40 < 0`. -/
theorem pageOf_negative_counterexample :
    pageOf (some "-1") = -1 ∧ limitOf none = 20 ∧
    (pageOf (some "-1") - 1) * limitOf none = -40 := by
  refine ⟨by decide, by decide, by decide⟩

/-- C7 amended: `page` falls back to the default 1 exactly when the
parameter is absent or `parseInt` yields `NaN` or `0`; any other
parsed integer — negative ones included — is used as is, and the same
holds for `limit` with default 20.  `skip = (page-1)*limit` is
non-negative whenever the resulting page and limit are at least 1,
but a parameter parsing to a negative integer passes through, so skip
can be negative. -/
theorem pageOf_limitOf_defaults (qpage qlimit : Option String) :
    (queryInt qpage = none ∨ queryInt qpage = some 0 → pageOf qpage = 1) ∧
    (∀ n : Int, queryInt qpage = some n → n ≠ 0 → pageOf qpage = n) ∧
    (queryInt qlimit = none ∨ queryInt qlimit = some 0 → limitOf qlimit = 20) ∧
    (∀ n : Int, queryInt qlimit = some n → n ≠ 0 → limitOf qlimit = n) ∧
    (1 ≤ pageOf qpage → 1 ≤ limitOf qlimit → 0 ≤ (pageOf qpage - 1) * limitOf qlimit) := by
  refine ⟨?_, ?_, ?_, ?_, ?_⟩
  · rintro (h | h) <;> simp [pageOf, jsOrDefault, h]
  · intro n h hn
    simp [pageOf, jsOrDefault, h, hn]
  · rintro (h | h) <;> simp [limitOf, jsOrDefault, h]
  · intro n h hn
    simp [limitOf, jsOrDefault, h, hn]
  · intro hp hl
    have h1 : (0 : Int) ≤ pageOf qpage - 1 := by omega
    have h2 : (0 : Int) ≤ limitOf qlimit := by omega
    exact mul_nonneg h1 h2

/-- Witness for C7 (amended) at concrete query strings. -/
theorem pageOf_limitOf_defaults_witness :
    pageOf (some "3") = 3 ∧ limitOf none = 20 ∧
    0 ≤ (pageOf (some "3") - 1) * limitOf none :=
  ⟨(pageOf_limitOf_defaults (some "3") none).2.1 3 (by decide) (by decide),
   (pageOf_limitOf_defaults (some "3") none).2.2.1 (Or.inl rfl),
   (pageOf_limitOf_defaults (some "3") none).2.2.2.2 (by decide) (by decide)⟩

/-! ## C5 — the phone pattern -/

/-- C5 counterexample: the claim reads the pattern as "optional
leading `+`, then only digits, spaces and hyphens", under which
`"12+3456"` is invalid; but the character class `[0-9+\- ]` of the
regex the code tests allows `+` at any position, so the code accepts
it and `validateRegistration` raises no phone error for it. -/
theorem phoneRegexTest_plus_anywhere_counterexample :
    phoneRegexTest "12+3456" = true ∧ specPhonePattern "12+3456" = false ∧
    (validateRegistration (fun _ => true)
        ⟨some "Jo", some "12+3456", some "a@b.com", none, none⟩).contains
      "Invalid phone" = false := by
  refine ⟨by decide, by decide, by decide⟩

/-- The phone error string occurs in the validation output exactly
when the phone rule fires. -/
theorem contains_phone_error_eq (isEmail : String → Bool) (d : RegisterBody) :
    (validateRegistration isEmail d).contains "Invalid phone" = phoneInvalid d := by
  rcases h1 : nameInvalid d <;> rcases h2 : phoneInvalid d <;>
    rcases h3 : emailInvalid isEmail d <;>
      simp only [validateRegistration, h1, h2, h3, if_true, if_false] <;> decide

/-- The regex test spelled out as a predicate on the string. -/
theorem phoneRegexTest_iff (s : String) :
    phoneRegexTest s = true ↔
      (6 ≤ s.length ∧ s.length ≤ 20 ∧
        ∀ c ∈ s.data, c.isDigit = true ∨ c = '+' ∨ c = '-' ∨ c = ' ') := by
  simp only [phoneRegexTest, Bool.and_eq_true, decide_eq_true_eq, List.all_eq_true,
    Bool.or_eq_true, beq_iff_eq]
  constructor
  · rintro ⟨⟨ha, hb⟩, hall⟩
    exact ⟨ha, hb, fun c hc => by have := hall c hc; tauto⟩
  · rintro ⟨ha, hb, hall⟩
    exact ⟨⟨ha, hb⟩, fun c hc => by have := hall c hc; tauto⟩

/-- C5 amended: validation accepts the phone iff it is 6 to 20
characters long and every character is a decimal digit, `'+'`, `'-'`
or `' '` — the `'+'` may appear at any position, not only the leading
one. -/
theorem phone_accepted_iff_charset (isEmail : String → Bool)
    (name email city address : Option String) (s : String) :
    (validateRegistration isEmail ⟨name, some s, email, city, address⟩).contains
        "Invalid phone" = false ↔
      (6 ≤ s.length ∧ s.length ≤ 20 ∧
        ∀ c ∈ s.data, c.isDigit = true ∨ c = '+' ∨ c = '-' ∨ c = ' ') := by
  rw [contains_phone_error_eq]
  constructor
  · intro h
    have hok : phoneRegexTest s = true := by
      simp only [phoneInvalid, Bool.or_eq_false_iff, Bool.not_eq_false'] at h
      exact h.2
    exact (phoneRegexTest_iff s).mp hok
  · intro h
    have hok := (phoneRegexTest_iff s).mpr h
    have hne : (s == "") = false := by
      rcases Bool.eq_false_or_eq_true (s == "") with ht | hf
      · exfalso
        have hs : s = "" := by simpa using ht
        have h0 : s.length = 0 := by rw [hs]; rfl
        omega
      · exact hf
    simp [phoneInvalid, jsTruthy, hok, hne]

/-- Witness for C5 (amended) at a concrete accepted phone. -/
theorem phone_accepted_iff_charset_witness :
    (validateRegistration (fun _ => true)
        ⟨some "Jo", some "+123 45-6", some "a@b.com", none, none⟩).contains
      "Invalid phone" = false :=
  (phone_accepted_iff_charset (fun _ => true) (some "Jo") (some "a@b.com") none none
    "+123 45-6").mpr (by decide)

/-! ## C3 — error accumulation and the joined message -/

/-- C3: the three validation rules are independent and their errors
accumulate: the list is empty exactly when all three fields are
well-formed, each error string occurs exactly when its rule fires,
and a submission with any validation error is rejected with a 400
whose message joins the messages of every failing field — an input
failing all three rules yields all three error strings. -/
theorem validation_accumulates (isEmail : String → Bool) (d : RegisterBody)
    (now : Int) (store : List Registration) :
    (validateRegistration isEmail d = [] ↔
      nameInvalid d = false ∧ phoneInvalid d = false ∧ emailInvalid isEmail d = false) ∧
    (validateRegistration isEmail d).contains "Invalid name" = nameInvalid d ∧
    (validateRegistration isEmail d).contains "Invalid phone" = phoneInvalid d ∧
    (validateRegistration isEmail d).contains "Invalid email" = emailInvalid isEmail d ∧
    (validateRegistration isEmail d ≠ [] →
      registerHandler isEmail now d store =
        (.badRequest (String.intercalate ", " (validateRegistration isEmail d)), store) ∧
      (registerHandler isEmail now d store).1.status = 400) ∧
    (nameInvalid d = true → phoneInvalid d = true → emailInvalid isEmail d = true →
      validateRegistration isEmail d = ["Invalid name", "Invalid phone", "Invalid email"] ∧
      (registerHandler isEmail now d store).1 =
        .badRequest "Invalid name, Invalid phone, Invalid email") := by
  refine ⟨?_, ?_, contains_phone_error_eq isEmail d, ?_, ?_, ?_⟩
  · rcases h1 : nameInvalid d <;> rcases h2 : phoneInvalid d <;>
      rcases h3 : emailInvalid isEmail d <;>
        simp [validateRegistration, h1, h2, h3]
  · rcases h1 : nameInvalid d <;> rcases h2 : phoneInvalid d <;>
      rcases h3 : emailInvalid isEmail d <;>
        simp only [validateRegistration, h1, h2, h3, if_true, if_false] <;> decide
  · rcases h1 : nameInvalid d <;> rcases h2 : phoneInvalid d <;>
      rcases h3 : emailInvalid isEmail d <;>
        simp only [validateRegistration, h1, h2, h3, if_true, if_false] <;> decide
  · intro h
    have hlen : (validateRegistration isEmail d).length ≠ 0 := by
      intro h0
      exact h (List.eq_nil_of_length_eq_zero h0)
    constructor
    · simp only [registerHandler, if_pos hlen]
    · simp only [registerHandler, if_pos hlen, RegisterResponse.status]
  · intro h1 h2 h3
    have hv : validateRegistration isEmail d =
        ["Invalid name", "Invalid phone", "Invalid email"] := by
      simp [validateRegistration, h1, h2, h3]
    refine ⟨hv, ?_⟩
    have hlen : (validateRegistration isEmail d).length ≠ 0 := by rw [hv]; decide
    simp only [registerHandler, if_pos hlen, hv]
    rfl

/-- Witness for C3 at an input failing all three rules. -/
theorem validation_accumulates_witness :
    validateRegistration (fun _ => false) ⟨some "J", some "123", some "x", none, none⟩ =
        ["Invalid name", "Invalid phone", "Invalid email"] ∧
      (registerHandler (fun _ => false) 0 ⟨some "J", some "123", some "x", none, none⟩ []).1 =
        .badRequest "Invalid name, Invalid phone, Invalid email" :=
  (validation_accumulates (fun _ => false) ⟨some "J", some "123", some "x", none, none⟩
    0 []).2.2.2.2.2 (by decide) (by decide) (by decide)

/-! ## C1 — time-windowed duplicate check and single insert -/

/-- The Boolean duplicate query matches its logical reading. -/
theorem dup_any_iff (now : Int) (body : RegisterBody) (store : List Registration) :
    (store.any fun r =>
        (some r.email == body.email || some r.phone == body.phone) &&
          decide (now - thirtyDaysMs ≤ r.createdAt)) = true ↔
      ∃ r ∈ store, (some r.email = body.email ∨ some r.phone = body.phone) ∧
        now - thirtyDaysMs ≤ r.createdAt := by
  simp only [List.any_eq_true, Bool.and_eq_true, Bool.or_eq_true, beq_iff_eq,
    decide_eq_true_eq]

/-- C1: for a submission that passes validation, `POST /api/register`
answers 409 `DuplicateError` iff some stored registration matches the
submitted email or the submitted phone and was created within the
last 30 days; on that failure the store is untouched, and otherwise
exactly one record is appended, with `createdAt = now` and
`city`/`address` defaulted to the empty string. -/
theorem register_duplicate_window (isEmail : String → Bool) (now : Int)
    (body : RegisterBody) (store : List Registration)
    (hvalid : validateRegistration isEmail body = []) :
    ((registerHandler isEmail now body store).1.status = 409 ↔
      ∃ r ∈ store, (some r.email = body.email ∨ some r.phone = body.phone) ∧
        now - thirtyDaysMs ≤ r.createdAt) ∧
    ((∃ r ∈ store, (some r.email = body.email ∨ some r.phone = body.phone) ∧
        now - thirtyDaysMs ≤ r.createdAt) →
      registerHandler isEmail now body store =
        (.conflict "Already registered recently.", store)) ∧
    (¬(∃ r ∈ store, (some r.email = body.email ∨ some r.phone = body.phone) ∧
        now - thirtyDaysMs ≤ r.createdAt) →
      registerHandler isEmail now body store =
        (.created "Registration saved",
          store ++ [⟨body.name.getD "", body.phone.getD "", body.email.getD "",
            body.city.getD "", body.address.getD "", now⟩]) ∧
      (registerHandler isEmail now body store).1.status = 201) := by
  have heq : registerHandler isEmail now body store =
      if (store.any fun r =>
          (some r.email == body.email || some r.phone == body.phone) &&
            decide (now - thirtyDaysMs ≤ r.createdAt)) then
        (.conflict "Already registered recently.", store)
      else
        (.created "Registration saved",
          store ++ [⟨body.name.getD "", body.phone.getD "", body.email.getD "",
            body.city.getD "", body.address.getD "", now⟩]) := by
    unfold registerHandler
    rw [hvalid]
    rw [if_neg (by simp)]
  rcases hd : (store.any fun r =>
      (some r.email == body.email || some r.phone == body.phone) &&
        decide (now - thirtyDaysMs ≤ r.createdAt)) with hfalse | htrue
  · rw [hd, if_neg Bool.false_ne_true] at heq
    have hnd : ¬∃ r ∈ store, (some r.email = body.email ∨ some r.phone = body.phone) ∧
        now - thirtyDaysMs ≤ r.createdAt := by
      intro hex
      rw [(dup_any_iff now body store).mpr hex] at hd
      cases hd
    refine ⟨?_, fun hex => absurd hex hnd, fun _ => ?_⟩
    · constructor
      · intro hst
        rw [heq] at hst
        simp [RegisterResponse.status] at hst
      · intro hex
        exact absurd hex hnd
    · exact ⟨heq, by rw [heq]; rfl⟩
  · rw [hd, if_pos rfl] at heq
    have hex := (dup_any_iff now body store).mp hd
    refine ⟨⟨fun _ => hex, fun _ => ?_⟩, fun _ => heq, fun hnex => absurd hex hnex⟩
    rw [heq]
    rfl

/-- Witness for C1: a fresh valid submission inserts one record; the
same submission against the resulting store is answered 409 without a
second insert. -/
theorem register_duplicate_window_witness :
    registerHandler (fun _ => true) 5
        ⟨some "Jo", some "1234567", some "a@b.com", none, none⟩ [] =
      (.created "Registration saved", [⟨"Jo", "1234567", "a@b.com", "", "", 5⟩]) ∧
    registerHandler (fun _ => true) 7
        ⟨some "Jo", some "1234567", some "a@b.com", none, none⟩
        [⟨"Jo", "1234567", "a@b.com", "", "", 5⟩] =
      (.conflict "Already registered recently.", [⟨"Jo", "1234567", "a@b.com", "", "", 5⟩]) :=
  ⟨((register_duplicate_window (fun _ => true) 5
      ⟨some "Jo", some "1234567", some "a@b.com", none, none⟩ [] (by decide)).2.2
      (by simp)).1,
   (register_duplicate_window (fun _ => true) 7
      ⟨some "Jo", some "1234567", some "a@b.com", none, none⟩
      [⟨"Jo", "1234567", "a@b.com", "", "", 5⟩] (by decide)).2.1
      ⟨⟨"Jo", "1234567", "a@b.com", "", "", 5⟩, by simp, Or.inl rfl, by decide⟩⟩

/-! ## C4 — pagination -/

/-- C4: for an authenticated listing with `page ≥ 1` and `limit ≥ 1`,
the response data is the `createdAt`-descending ordering of the store
with the first `(page-1)*limit` records skipped and at most `limit`
kept; `total` counts all registrations; `pages` is the ceiling of
`total/limit` (characterized by the two bounds below); and a page
beyond `pages` yields an empty data sequence with the same totals. -/
theorem listRegistrations_pagination (page limit : Int) (store : List Registration)
    (hp : 1 ≤ page) (hl : 1 ≤ limit) :
    listRegistrations page limit store =
      .ok (((sortByCreatedAtDesc store).drop ((page - 1) * limit).toNat).take limit.toNat)
        store.length page (ceilPagesJS store.length limit) ∧
    (((sortByCreatedAtDesc store).drop ((page - 1) * limit).toNat).take limit.toNat).length
      ≤ limit.toNat ∧
    List.Pairwise (fun a b : Registration => b.createdAt ≤ a.createdAt)
      (((sortByCreatedAtDesc store).drop ((page - 1) * limit).toNat).take limit.toNat) ∧
    (sortByCreatedAtDesc store).Perm store ∧
    (store.length : Int) ≤ ceilPagesJS store.length limit * limit ∧
    ceilPagesJS store.length limit * limit - limit < store.length ∧
    (ceilPagesJS store.length limit < page →
      ((sortByCreatedAtDesc store).drop ((page - 1) * limit).toNat).take limit.toNat = []) := by
  have hskip : ¬((page - 1) * limit < 0) :=
    not_lt.mpr (mul_nonneg (by omega) (by omega))
  have habs : limit.natAbs = limit.toNat := by omega
  have heq : listRegistrations page limit store =
      .ok (((sortByCreatedAtDesc store).drop ((page - 1) * limit).toNat).take limit.toNat)
        store.length page (ceilPagesJS store.length limit) := by
    unfold listRegistrations
    rw [if_neg hskip, habs]
  -- ceiling facts in ℕ
  have hl0 : 0 < limit.toNat := by omega
  have hdm := Nat.div_add_mod (store.length + limit.toNat - 1) limit.toNat
  have hmod := Nat.mod_lt (store.length + limit.toNat - 1) hl0
  have hceil : ceilPagesJS store.length limit =
      ((store.length + limit.toNat - 1) / limit.toNat : Nat) := by
    unfold ceilPagesJS
    rw [if_pos (by omega)]
  have hkey : store.length ≤ limit.toNat * ((store.length + limit.toNat - 1) / limit.toNat) ∧
      limit.toNat * ((store.length + limit.toNat - 1) / limit.toNat) <
        store.length + limit.toNat := by
    generalize hq : limit.toNat * ((store.length + limit.toNat - 1) / limit.toNat) = m at hdm
    omega
  have hcast : ((limit.toNat : Nat) : Int) = limit := Int.toNat_of_nonneg (by omega)
  have hql : (((store.length + limit.toNat - 1) / limit.toNat : Nat) : Int) * limit =
      ((limit.toNat * ((store.length + limit.toNat - 1) / limit.toNat) : Nat) : Int) := by
    push_cast
    rw [hcast]
    ring
  have hle1 : (store.length : Int) ≤ ceilPagesJS store.length limit * limit := by
    rw [hceil, hql]
    exact_mod_cast hkey.1
  have hlt2 : ceilPagesJS store.length limit * limit - limit < store.length := by
    rw [hceil, hql]
    have h2 : ((limit.toNat * ((store.length + limit.toNat - 1) / limit.toNat) : Nat) : Int) <
        (store.length : Int) + ((limit.toNat : Nat) : Int) := by
      exact_mod_cast hkey.2
    omega
  refine ⟨heq, ?_, ?_, sortByCreatedAtDesc_perm store, hle1, hlt2, ?_⟩
  · simp only [List.length_take]
    omega
  · exact List.Pairwise.sublist ((List.take_sublist _ _).trans (List.drop_sublist _ _))
      (sortByCreatedAtDesc_sorted store)
  · intro hbp
    rw [hceil] at hbp
    have hq1 : (((store.length + limit.toNat - 1) / limit.toNat : Nat) : Int) ≤ page - 1 := by
      omega
    have hmono : (((store.length + limit.toNat - 1) / limit.toNat : Nat) : Int) * limit ≤
        (page - 1) * limit := mul_le_mul_of_nonneg_right hq1 (by omega)
    have hlen : (store.length : Int) ≤ (page - 1) * limit := by
      calc (store.length : Int)
          ≤ (((store.length + limit.toNat - 1) / limit.toNat : Nat) : Int) * limit := by
            rw [hceil] at hle1
            exact hle1
        _ ≤ (page - 1) * limit := hmono
    have hlen2 : (sortByCreatedAtDesc store).length ≤ ((page - 1) * limit).toNat := by
      rw [sortByCreatedAtDesc_length]
      omega
    rw [List.drop_eq_nil_of_le hlen2, List.take_nil]

/-- Witness for C4 at a concrete page, limit and store. -/
theorem listRegistrations_pagination_witness :
    listRegistrations 1 2 [⟨"A", "111111", "a@x.y", "", "", 3⟩,
        ⟨"B", "222222", "b@x.y", "", "", 1⟩, ⟨"C", "333333", "c@x.y", "", "", 2⟩] =
      .ok (((sortByCreatedAtDesc [⟨"A", "111111", "a@x.y", "", "", 3⟩,
          ⟨"B", "222222", "b@x.y", "", "", 1⟩,
          ⟨"C", "333333", "c@x.y", "", "", 2⟩]).drop (((1 : Int) - 1) * 2).toNat).take
          (2 : Int).toNat)
        3 1 (ceilPagesJS 3 2) :=
  (listRegistrations_pagination 1 2 [⟨"A", "111111", "a@x.y", "", "", 3⟩,
    ⟨"B", "222222", "b@x.y", "", "", 1⟩, ⟨"C", "333333", "c@x.y", "", "", 2⟩]
    (by decide) (by decide)).1

/-! ## C6 — CSV export -/

/-- Digit characters are never newlines. -/
theorem digitChar_beq_newline (d : Nat) : (digitChar d == '\n') = false := by
  unfold digitChar
  generalize d % 10 = k
  rcases k with _ | _ | _ | _ | _ | _ | _ | _ | _ | k <;> rfl

/-- Newline counting distributes over append. -/
theorem newlineCount_append (a b : String) :
    newlineCount (a ++ b) = newlineCount a + newlineCount b := by
  simp [newlineCount, String.data_append, List.count_append]

/-- Two-digit pads contain no newline. -/
theorem newlineCount_pad2 (n : Nat) : newlineCount (pad2 n) = 0 := by
  simp [newlineCount, pad2, List.count_cons, digitChar_beq_newline]

/-- Three-digit pads contain no newline. -/
theorem newlineCount_pad3 (n : Nat) : newlineCount (pad3 n) = 0 := by
  simp [newlineCount, pad3, List.count_cons, digitChar_beq_newline]

/-- Four-digit pads contain no newline. -/
theorem newlineCount_pad4 (n : Nat) : newlineCount (pad4 n) = 0 := by
  simp [newlineCount, pad4, List.count_cons, digitChar_beq_newline]

/-- The rendered ISO-8601 timestamp contains no newline. -/
theorem newlineCount_toISOString (t : Int) : newlineCount (toISOString t) = 0 := by
  unfold toISOString
  rcases hc : civilFromDays ((t - t.emod 86400000) / 86400000).toNat with ⟨y, m, d⟩
  simp only [hc, newlineCount_append, newlineCount_pad2, newlineCount_pad3,
    newlineCount_pad4]
  decide

/-- A record whose fields contain no newline serializes to exactly
one newline-terminated CSV line. -/
theorem newlineCount_csvRow (r : Registration) (h : fieldsOnOneLine r = true) :
    newlineCount (csvRow r) = 1 := by
  simp only [fieldsOnOneLine, Bool.and_eq_true, beq_iff_eq] at h
  obtain ⟨⟨⟨⟨hn, hp⟩, he⟩, hc⟩, ha⟩ := h
  have hn' : newlineCount r.name = 0 := hn
  have hp' : newlineCount r.phone = 0 := hp
  have he' : newlineCount r.email = 0 := he
  have hc' : newlineCount r.city = 0 := hc
  have ha' : newlineCount r.address = 0 := ha
  simp only [csvRow, newlineCount_append, newlineCount_toISOString, hn', hp', he', hc', ha']
  decide

/-- The row-appending loop adds one newline per clean record. -/
theorem newlineCount_foldl_rows (data : List Registration) (acc : String)
    (h : ∀ r ∈ data, fieldsOnOneLine r = true) :
    newlineCount (data.foldl (fun csv r => csv ++ csvRow r) acc) =
      newlineCount acc + data.length := by
  induction data generalizing acc with
  | nil => simp
  | cons r rs ih =>
    simp only [List.foldl_cons, List.length_cons]
    rw [ih (acc ++ csvRow r) (fun x hx => h x (List.mem_cons_of_mem _ hx))]
    rw [newlineCount_append, newlineCount_csvRow r (h r (List.mem_cons_self _ _))]
    omega

/-- The CSV text of `n` clean records consists of `n+1`
newline-terminated lines. -/
theorem newlineCount_csvText (data : List Registration)
    (h : ∀ r ∈ data, fieldsOnOneLine r = true) :
    newlineCount (csvText data) = data.length + 1 := by
  rw [csvText, newlineCount_foldl_rows data _ h]
  have hh : newlineCount "Name,Phone,Email,City,Address,Date\n" = 1 := by decide
  omega

/-- On an admin session over a store of at most 9999 records, the
download handler fetches every record (sorted, skip 0, limit 9999)
and produces the CSV text of the full sorted store. -/
theorem downloadCsv_admin_eq (sess : Session) (store : List Registration)
    (h1 : sess.isAdmin = true) (h2 : store.length ≤ 9999) :
    downloadCsv sess store = some (csvText (sortByCreatedAtDesc store)) := by
  have hp : pageOf (some "1") = 1 := by decide
  have hl : limitOf (some "9999") = 9999 := by decide
  have hA : adminRegistrations sess (some "1") (some "9999") store =
      (.ok (sortByCreatedAtDesc store) store.length 1 (ceilPagesJS store.length 9999),
        store, 2) := by
    unfold adminRegistrations
    rw [h1, if_pos rfl, hp, hl]
    unfold listRegistrations
    rw [if_neg (by norm_num)]
    norm_num
    rw [sortByCreatedAtDesc_length]
    exact h2
  unfold downloadCsv
  rw [hA]

/-- C6 counterexample: the claim promises `n+1` lines for every
store of `n` records, but no escaping is performed: one record whose
name contains a newline already produces 3 lines instead of 2 (and a
store beyond 9999 records would be truncated by the `limit=9999`
fetch). -/
theorem downloadCsv_newline_counterexample :
    (downloadCsv ⟨true⟩ [⟨"a\nb", "123456", "a@b.cd", "", "", 0⟩]).map newlineCount =
        some 3 ∧
      ([⟨"a\nb", "123456", "a@b.cd", "", "", 0⟩] : List Registration).length + 1 = 2 := by
  constructor
  · rw [downloadCsv_admin_eq ⟨true⟩ [⟨"a\nb", "123456", "a@b.cd", "", "", 0⟩] rfl
      (by decide)]
    rw [show sortByCreatedAtDesc [⟨"a\nb", "123456", "a@b.cd", "", "", 0⟩] =
        [⟨"a\nb", "123456", "a@b.cd", "", "", 0⟩] from List.mergeSort_singleton _]
    decide
  · decide

/-- C6 amended: for an authenticated export over a store of at most
9999 registrations none of whose field values contains a newline, the
produced text is the constant header line followed by one
double-quote-wrapped CSV row per record — all records, ordered by
`createdAt` descending, with ISO-8601 timestamps — and consists of
exactly `n+1` newline-terminated lines. -/
theorem downloadCsv_lines (sess : Session) (store : List Registration)
    (h1 : sess.isAdmin = true) (h2 : store.length ≤ 9999)
    (h3 : ∀ r ∈ store, fieldsOnOneLine r = true) :
    downloadCsv sess store = some (csvText (sortByCreatedAtDesc store)) ∧
    newlineCount (csvText (sortByCreatedAtDesc store)) = store.length + 1 ∧
    List.Pairwise (fun a b : Registration => b.createdAt ≤ a.createdAt)
      (sortByCreatedAtDesc store) ∧
    (sortByCreatedAtDesc store).Perm store := by
  refine ⟨downloadCsv_admin_eq sess store h1 h2, ?_, sortByCreatedAtDesc_sorted store,
    sortByCreatedAtDesc_perm store⟩
  rw [newlineCount_csvText _ (fun r hr => h3 r ((sortByCreatedAtDesc_perm store).mem_iff.mp hr))]
  rw [sortByCreatedAtDesc_length]

/-- Witness for C6 (amended) on a concrete clean store. -/
theorem downloadCsv_lines_witness :
    downloadCsv ⟨true⟩ [⟨"Jo", "1234567", "a@b.com", "", "", 0⟩] =
      some (csvText (sortByCreatedAtDesc [⟨"Jo", "1234567", "a@b.com", "", "", 0⟩])) :=
  (downloadCsv_lines ⟨true⟩ [⟨"Jo", "1234567", "a@b.com", "", "", 0⟩] rfl (by decide)
    (by decide)).1

end IndianHealth
